import Mathlib

/-!
# Weenix: memory devices and the boot / test sequence of `kmain.c`

A verification development over two source files of the kernel:

* `kernel/drivers/memdevs.c`: the `null` and `zero` byte devices;
* `kernel/main/kmain.c`: `bootstrap`, `idleproc_run`, `initproc_run` and the
  process, mutex and out-of-order-exit tests they launch.
-/

namespace Weenix

/-! ## `kernel/drivers/memdevs.c`

A `char` buffer is a list of byte values; an access at an index outside the
buffer is a fault, rendered as `none`.  The `bytedev_t *dev` argument is a
device handle that none of the three functions looks at. -/

/-- `null_read`: stores `'\x4'` in `buff[0]` and returns 0.  The result is the
returned `int` with the buffer as the call leaves it. -/
def null_read (_dev : Nat) (_offset : Int) (buf : List Nat) (_count : Int) :
    Option (Int × List Nat) :=
  if 0 < buf.length then some (0, buf.set 0 4) else none

/-- The loop `for (i = 0; i < count; i++) { if (buff[i] == '\0') break; }` of
`null_write`, entered at index `i` with `n = count - i` iterations to go before
the test `i < count` fails; the result is the value of `i` when the loop is
left. -/
def null_write_loop (buff : List Nat) : Nat → Nat → Option Int
  | 0, i => some (i : Int)
  | n + 1, i =>
    match buff[i]? with
    | none => none
    | some c => if c = 0 then some (i : Int) else null_write_loop buff n (i + 1)

/-- `null_write`: runs the loop from `i = 0` and returns `i`. -/
def null_write (_dev : Nat) (_offset : Int) (buf : List Nat) (count : Int) : Option Int :=
  null_write_loop buf count.toNat 0

/-- The loop `for (i = 0; i < count; i++) { buff[i] = '\0'; }` of `zero_read`,
entered at index `i` with `n = count - i` iterations to go. -/
def zero_read_loop (buff : List Nat) : Nat → Nat → Option (List Nat)
  | 0, _ => some buff
  | n + 1, i =>
    if i < buff.length then zero_read_loop (buff.set i 0) n (i + 1) else none

/-- `zero_read`: runs the loop from `i = 0` and returns `count`. -/
def zero_read (_dev : Nat) (_offset : Int) (buf : List Nat) (count : Int) :
    Option (Int × List Nat) :=
  match zero_read_loop buf count.toNat 0 with
  | none => none
  | some buf' => some (count, buf')


/-! ## `kernel/main/kmain.c`

The functions of `kmain.c` do their work through calls to collaborators
(`proc_create`, `kthread_create`, `sched_make_runnable`, `do_waitpid`, ...).  A
function body is a `Prog`: the next call it makes together with what it does
with the value the call returns.  The bodies below follow the C text statement
by statement. -/

/-- The functions of `kmain.c` that are handed to `kthread_create` as the
entry point of a thread. -/
inductive Func where
  | idleproc_run | initproc_run | print_proc_info | run_procs
  | lock_and_switch | just_lock | run_kmutex_test
  | switch_then_exit | just_exit | terminate_out_of_order
  deriving DecidableEq, Repr

/-- Values passed to and returned by collaborators: `NULL`, an `int` (also a
`pid_t`), and the pointers `proc_t *`, `kthread_t *`, `kmutex_t *`, each a
handle. -/
inductive Val where
  | null
  | int (n : Int)
  | proc (h : Nat)
  | thr (h : Nat)
  | mtx (h : Nat)
  deriving DecidableEq, Repr

/-- The preprocessor symbols `kmain.c` tests with `#ifdef`. -/
structure Config where
  VFS : Bool
  MTP : Bool
  SHADOWD : Bool
  S5FS : Bool
  DRIVERS : Bool
  deriving DecidableEq, Repr

/-- One call to a collaborator, with its arguments.  `set_curproc`,
`set_curthr`, `get_curproc` and `get_curthr` are the accesses to the globals
`curproc` and `curthr`;
`cli_hlt` is the `cli; hlt` of `hard_shutdown`. -/
inductive Call where
  | pt_template_init
  | proc_create (name : String)
  | kthread_create (p : Val) (func : Func) (arg1 : Int) (arg2 : Val)
  | set_curproc (p : Val)
  | set_curthr (t : Val)
  | get_curproc
  | get_curthr
  | context_make_active (t : Val)
  | init_call_all
  | gdb_hook (name : String)
  | intr_enable
  | sched_make_runnable (t : Val)
  | sched_switch
  | do_waitpid (pid : Int) (options : Int) (status : Bool)
  | do_exit (status : Int)
  | kthread_exit (retval : Int)
  | kthread_reapd_shutdown
  | shadowd_shutdown
  | vput_cwd
  | vfs_shutdown
  | pframe_shutdown
  | vt_print_shutdown
  | cli_hlt
  | dbg (msg : String)
  | dbginfo (what : String)
  | kmalloc_kmutex
  | kfree (p : Val)
  | kmutex_init (m : Val)
  | kmutex_lock (m : Val)
  | kmutex_unlock (m : Val)
  | kpanic (msg : String)
  deriving DecidableEq, Repr

/-- A function body: it has returned `a`, or it makes the call `c` and goes on
as `k v` once the call has returned `v`. -/
inductive Prog (α : Type) where
  | ret (a : α) : Prog α
  | call (c : Call) (k : Val → Prog α) : Prog α

/-- Sequencing of two pieces of code. -/
def Prog.bind {α β : Type} : Prog α → (α → Prog β) → Prog β
  | .ret a, f => f a
  | .call c k, f => .call c (fun v => (k v).bind f)

instance : Monad Prog where
  pure := Prog.ret
  bind := Prog.bind

/-- A single call, returning what the collaborator returns. -/
def call (c : Call) : Prog Val := Prog.call c Prog.ret

/-- `PID_INIT`: the init process "should have PID 1" (`initproc_create`). -/
def PID_INIT : Int := 1

/-- Modelled from the spec: the macro `KASSERT` of `util/debug.h`, which is
not among the sources.  A failed assertion is an invariant violation, which
aborts the kernel (§7). -/
def KASSERT (cond : Bool) (text : String) : Prog Unit :=
  if cond then pure () else do
    let _ ← call (.kpanic text)
    pure ()

/-- `hard_shutdown`. -/
def hard_shutdown (cfg : Config) : Prog Unit := do
  if cfg.DRIVERS then
    let _ ← call .vt_print_shutdown
  let _ ← call .cli_hlt
  pure ()

/-- `initproc_create`. -/
def initproc_create : Prog Val := do
  let init_proc ← call (.proc_create "Init process")
  let init_thr ← call (.kthread_create init_proc .initproc_run 0 .null)
  return init_thr

/-- `bootstrap`. -/
def bootstrap (_arg1 : Int) (_arg2 : Val) : Prog Val := do
  let _ ← call .pt_template_init
  let idle_proc ← call (.proc_create "Idle process")
  let _ ← call (.set_curproc idle_proc)
  let idle_thr ← call (.kthread_create idle_proc .idleproc_run 0 .null)
  let _ ← call (.set_curthr idle_thr)
  let _ ← call (.dbg "Before context_make_active\n")
  let _ ← call (.context_make_active idle_thr)
  let _ ← call (.kpanic "weenix returned to bootstrap()!!! BAD!!!\n")
  return .null

/-- `idleproc_run`. -/
def idleproc_run (cfg : Config) (_arg1 : Int) (_arg2 : Val) : Prog Val := do
  let _ ← call (.dbg "Start idleproc_run.\n")
  let initthr ← initproc_create
  let _ ← call .init_call_all
  let _ ← call (.gdb_hook "initialized")
  let _ ← call .intr_enable
  let _ ← call (.sched_make_runnable initthr)
  let child ← call (.do_waitpid PID_INIT 0 true)
  KASSERT (Val.int PID_INIT == child) "PID_INIT == child"
  let _ ← call (.dbg "The return value is %d\n")
  if cfg.MTP then
    let _ ← call .kthread_reapd_shutdown
  if cfg.SHADOWD then
    let _ ← call .shadowd_shutdown
  if cfg.VFS then
    let _ ← call (.dbg "weenix: vfs shutdown...\n")
    let _ ← call .vput_cwd
    let r ← call .vfs_shutdown
    if r != Val.int 0 then
      let _ ← call (.kpanic "vfs shutdown FAILED!!\n")
  if cfg.S5FS then
    let _ ← call .pframe_shutdown
  let _ ← call (.dbg "\nweenix: halted cleanly!\n")
  let _ ← call (.gdb_hook "shutdown")
  hard_shutdown cfg
  return .null

/-- `create_proc`. -/
def create_proc (proc_name : String) (func : Func) (arg1 : Int) (arg2 : Val) : Prog Unit := do
  let test_proc ← call (.proc_create proc_name)
  let test_thr ← call (.kthread_create test_proc func arg1 arg2)
  let _ ← call (.sched_make_runnable test_thr)
  return ()

/-- `print_proc_list`. -/
def print_proc_list : Prog Unit := do
  let _ ← call (.dbg "Printing proc_list:\n")
  let _ ← call (.dbginfo "proc_list_info")
  pure ()

/-- `initproc_run`. -/
def initproc_run (_arg1 : Int) (_arg2 : Val) : Prog Val := do
  let _ ← call (.dbg "Going into initproc.\n")
  create_proc "run procs" .run_procs 0 .null
  let _ ← call (.do_waitpid (-1) 0 false)
  print_proc_list
  create_proc "mutex test" .run_kmutex_test 0 .null
  let _ ← call (.do_waitpid (-1) 0 false)
  create_proc "out of order" .terminate_out_of_order 0 .null
  let _ ← call (.do_waitpid (-1) 0 false)
  let _ ← call (.do_exit 0)
  let _ ← call (.kpanic "initproc won't go here because it has exited.\n")
  return .null

/-- `print_proc_info`. -/
def print_proc_info (_arg1 : Int) (_arg2 : Val) : Prog Val := do
  let curproc ← call .get_curproc
  KASSERT (Val.null != curproc) "NULL != curproc"
  let _ ← call (.dbg "Printing info of curproc:\n")
  let _ ← call (.dbginfo "proc_info")
  let _ ← call (.kthread_exit 0)
  let _ ← call (.kpanic "Should not be here\n")
  return .null

/-- `run_procs`. -/
def run_procs (_arg1 : Int) (_arg2 : Val) : Prog Val := do
  let _ ← call (.dbg "Starting testing\n")
  create_proc "Test1" .print_proc_info 0 .null
  create_proc "Test2" .print_proc_info 0 .null
  create_proc "Test3" .print_proc_info 0 .null
  print_proc_list
  let _ ← call (.do_waitpid (-1) 0 false)
  let _ ← call (.dbg "1\n")
  let _ ← call (.do_waitpid (-1) 0 false)
  let _ ← call (.dbg "2\n")
  let _ ← call (.do_waitpid (-1) 0 false)
  let _ ← call (.dbg "3\n")
  let _ ← call (.dbg "After wait for 3 processes.\n")
  print_proc_list
  let _ ← call (.do_exit 1)
  let _ ← call (.kpanic "Should not be here\n")
  return .null

/-- `lock_and_switch`: `arg2` is the mutex. -/
def lock_and_switch (_arg1 : Int) (arg2 : Val) : Prog Val := do
  let mtx := arg2
  let _ ← call (.kmutex_lock mtx)
  let _ ← call (.dbg "This proc acquire the lock and will give up the processor.\n")
  let curthr ← call .get_curthr
  let _ ← call (.sched_make_runnable curthr)
  let _ ← call .sched_switch
  let _ ← call (.kmutex_unlock mtx)
  let _ ← call (.dbg "Now unlock the mutex and exit.\n")
  let _ ← call (.kthread_exit 0)
  let _ ← call (.kpanic "Should not be here.\n")
  return .null

/-- `just_lock`: `arg2` is the mutex. -/
def just_lock (_arg1 : Int) (arg2 : Val) : Prog Val := do
  let mtx := arg2
  let _ ← call (.dbg "Just lock trying to acquire the lock.\n")
  let _ ← call (.kmutex_lock mtx)
  let _ ← call (.dbg "Just lock acquire the lock and unlock it.\n")
  let _ ← call (.kmutex_unlock mtx)
  let _ ← call (.kthread_exit 0)
  let _ ← call (.kpanic "Should not be here.\n")
  return .null

/-- `run_kmutex_test`. -/
def run_kmutex_test (_arg1 : Int) (_arg2 : Val) : Prog Val := do
  let _ ← call (.dbg "Start testing kmutex\n")
  let mtx ← call .kmalloc_kmutex
  let _ ← call (.kmutex_init mtx)
  create_proc "lock and switch No.1" .lock_and_switch 0 mtx
  create_proc "lock and switch No.2" .lock_and_switch 0 mtx
  create_proc "just lock No.1" .just_lock 0 mtx
  create_proc "just lock No.2" .just_lock 0 mtx
  print_proc_list
  let _ ← call (.do_waitpid (-1) 0 false)
  let _ ← call (.do_waitpid (-1) 0 false)
  let _ ← call (.do_waitpid (-1) 0 false)
  let _ ← call (.do_waitpid (-1) 0 false)
  let _ ← call (.kfree mtx)
  let _ ← call (.do_exit 0)
  let _ ← call (.kpanic "Should not be here.\n")
  return .null

/-- `switch_then_exit`. -/
def switch_then_exit (_arg1 : Int) (_arg2 : Val) : Prog Val := do
  let curthr ← call .get_curthr
  let _ ← call (.sched_make_runnable curthr)
  let _ ← call .sched_switch
  let _ ← call (.do_exit 0)
  let _ ← call (.kpanic "Should not go to here.\n")
  return .null

/-- `just_exit`. -/
def just_exit (_arg1 : Int) (_arg2 : Val) : Prog Val := do
  let _ ← call (.do_exit 0)
  let _ ← call (.kpanic "Should not go to here.\n")
  return .null

/-- `terminate_out_of_order`. -/
def terminate_out_of_order (_arg1 : Int) (_arg2 : Val) : Prog Val := do
  create_proc "switch_then_exit No.1" .switch_then_exit 0 .null
  create_proc "just_exit No.1" .just_exit 0 .null
  create_proc "switch_then_exit No.2" .switch_then_exit 0 .null
  create_proc "just_exit No.2" .just_exit 0 .null
  let _ ← call (.do_waitpid (-1) 0 false)
  let _ ← call (.do_waitpid (-1) 0 false)
  let _ ← call (.do_waitpid (-1) 0 false)
  let _ ← call (.do_waitpid (-1) 0 false)
  let _ ← call (.do_exit 0)
  let _ ← call (.kpanic "Should not be here.\n")
  return .null

/-- The body a thread created with entry point `f` executes. -/
def entry (cfg : Config) : Func → Int → Val → Prog Val
  | .idleproc_run => idleproc_run cfg
  | .initproc_run => initproc_run
  | .print_proc_info => print_proc_info
  | .run_procs => run_procs
  | .lock_and_switch => lock_and_switch
  | .just_lock => just_lock
  | .run_kmutex_test => run_kmutex_test
  | .switch_then_exit => switch_then_exit
  | .just_exit => just_exit
  | .terminate_out_of_order => terminate_out_of_order

/-! ### The calls of one function, whatever the collaborators return -/

/-- Calls that do not come back to their caller: an activated context, an
exiting thread, a panic, the final halt. -/
def Call.noreturn : Call → Bool
  | .context_make_active _ => true
  | .do_exit _ => true
  | .kthread_exit _ => true
  | .kpanic _ => true
  | .cli_hlt => true
  | _ => false

/-- The calls a body makes, in order, each with the value it returned, when
the collaborators answer as `o` says: `o` maps the calls made so far (the
last one being the call to answer) to the value returned.  The sequence ends at
the first call that does not return. -/
def Prog.trace {α : Type} (o : List Call → Val) : List Call → Prog α → List (Call × Val)
  | _, .ret _ => []
  | hist, .call c k =>
    if c.noreturn then [(c, Val.null)]
    else (c, o (hist ++ [c])) :: Prog.trace o (hist ++ [c]) (k (o (hist ++ [c])))

/-! ### The collaborators: process table, threads, scheduler, mutex, wait

`proc/proc.c`, `proc/kthread.c`, `proc/sched.c` and `proc/kmutex.c` are not
among the sources.  What the calls of `kmain.c` do to the kernel state is
modelled on the specification (§3 data model, §4 component design). -/

/-- Modelled from the spec: the states of a Process (§3); `proc/proc.h` is
not among the sources. -/
inductive ProcState where
  | RUNNING | ZOMBIE
  deriving DecidableEq, Repr

/-- Modelled from the spec: the states of a KernelThread (§3), with `NEW` for a
thread that is "newly created" and has not been made runnable yet (§4.2);
`proc/kthread.h` is not among the sources. -/
inductive ThrState where
  | NEW | RUNNABLE | RUNNING | SLEEPING | EXITED
  deriving DecidableEq, Repr

/-- Modelled from the spec: a Process (§3): pid, name, state, exit status,
parent, ordered children, owned threads and the death wait queue on which it
sleeps, as a parent, in `do_waitpid`. -/
structure Proc where
  pid : Nat
  name : String
  state : ProcState
  status : Int
  parent : Option Nat
  children : List Nat
  threads : List Nat
  wait : List Nat

/-- Modelled from the spec: a KernelThread (§3): state, owning process and
saved execution context.  The saved context is the code the thread goes on
with when its context is activated. -/
structure KThread where
  tid : Nat
  state : ThrState
  proc : Nat
  ctx : Prog Val

/-- Modelled from the spec: a Mutex (§3): optional owner and the FIFO wait
queue of blockers. -/
structure KMutex where
  owner : Option Nat
  waitq : List Nat
  deriving DecidableEq, Repr

/-- Reasons for which the machine stops. -/
inductive Halt where
  | shutdown
  | panicked (msg : String)
  | NotOwner
  | runq_empty
  | invariant (what : String)
  deriving DecidableEq, Repr

/-- One executed call: the calling thread and process, the call, and the value
it returned to the caller at once (`none` when the caller was suspended or the
call does not return). -/
structure Event where
  thr : Option Nat
  proc : Option Nat
  call : Call
  ret : Option Val
  deriving DecidableEq, Repr

/-- Modelled from the spec: the process-wide state (§3, §9): process table,
threads, run queue, the `curproc` / `curthr` slots, the allocated mutexes, the
code the CPU is executing, and whether interrupts are enabled.  `log` records
the calls executed so far, latest first; no operation reads it.  `yield`
selects the reading of `make_runnable` (see there).  Allocation never fails in
this model: the `OutOfMemory` result of §7 is left out. -/
structure Kernel where
  cfg : Config
  yield : Bool
  procs : List Proc
  thrs : List KThread
  mtxs : List (Option KMutex)
  runq : List Nat
  curproc : Option Nat
  curthr : Option Nat
  cpu : Prog Val
  next_pid : Nat
  next_tid : Nat
  intr : Bool
  halted : Option Halt
  log : List Event

namespace Kernel

/-- The process with the given pid. -/
def findProc (k : Kernel) (pid : Nat) : Option Proc :=
  k.procs.find? (fun p => p.pid == pid)

/-- The thread with the given id. -/
def findThr (k : Kernel) (tid : Nat) : Option KThread :=
  k.thrs.find? (fun t => t.tid == tid)

/-- Change the process with the given pid. -/
def updProc (k : Kernel) (pid : Nat) (f : Proc → Proc) : Kernel :=
  { k with procs := k.procs.map (fun p => if p.pid == pid then f p else p) }

/-- Change the thread with the given id. -/
def updThr (k : Kernel) (tid : Nat) (f : KThread → KThread) : Kernel :=
  { k with thrs := k.thrs.map (fun t => if t.tid == tid then f t else t) }

/-- Stop the machine. -/
def halt (k : Kernel) (h : Halt) : Kernel :=
  { k with halted := some h }

/-- The call returns `v` to the running code. -/
def resume (k : Kernel) (cont : Val → Prog Val) (v : Val) : Kernel :=
  { k with cpu := cont v }

/-- Is the thread in the run queue or in some wait queue? -/
def queued (k : Kernel) (tid : Nat) : Bool :=
  k.runq.contains tid
    || k.procs.any (fun p => p.wait.contains tid)
    || k.mtxs.any (fun m => match m with
        | some m => m.waitq.contains tid
        | none => false)

/-- Modelled from the spec: `process_create(name)` (§4.3): allocates a pid,
creates a Process in RUNNING with no threads, parent set to the creating
process (none for the first process), registers it in the table and appends it
to the parent's children. -/
def proc_create (k : Kernel) (name : String) : Kernel × Val :=
  let pid := k.next_pid
  let p : Proc :=
    { pid := pid, name := name, state := .RUNNING, status := 0, parent := k.curproc,
      children := [], threads := [], wait := [] }
  let k1 := { k with procs := k.procs ++ [p], next_pid := pid + 1 }
  let k2 := match k.curproc with
    | some par => k1.updProc par (fun q => { q with children := q.children ++ [pid] })
    | none => k1
  (k2, .proc pid)

/-- Modelled from the spec: `thread_create(process, entry, arg1, arg2)` (§3,
§4.1, §4.3): a newly created thread of the process whose context, when first
activated, executes `entry(arg1, arg2)`; no thread may be created under a
ZOMBIE process. -/
def kthread_create (k : Kernel) (p : Val) (func : Func) (arg1 : Int) (arg2 : Val) :
    Kernel × Val :=
  match p with
  | .proc pid =>
    match k.findProc pid with
    | some pr =>
      if pr.state = .RUNNING then
        let tid := k.next_tid
        let t : KThread :=
          { tid := tid, state := .NEW, proc := pid, ctx := entry k.cfg func arg1 arg2 }
        let k1 := { k with thrs := k.thrs ++ [t], next_tid := tid + 1 }
        (k1.updProc pid (fun q => { q with threads := q.threads ++ [tid] }), .thr tid)
      else (k.halt (.invariant "thread created under a ZOMBIE process"), .null)
    | none => (k.halt (.invariant "kthread_create: no such process"), .null)
  | _ => (k.halt (.invariant "kthread_create: not a process"), .null)

/-- Modelled from the spec: `make_runnable(thread)` (§4.2): requires that the
thread is currently SLEEPING or newly created (never already RUNNABLE or
RUNNING); appends it to the run queue tail and sets its state RUNNABLE.  A call
that breaks the requirement, or that would put a thread in two queues at once,
is an invariant violation and halts (§7).

With `k.yield` set, one caller beyond these words is accepted: the current
thread while it is RUNNING.  This is the reading under which a thread can yield
as §4.2 asks of the caller of `switch()` ("outgoing thread's state must already
be set to RUNNABLE or SLEEPING by the caller") and as Scenario D supposes
("locks then yields while held"). -/
def make_runnable (k : Kernel) (tid : Nat) : Kernel :=
  match k.findThr tid with
  | none => k.halt (.invariant "make_runnable: no such thread")
  | some t =>
    if k.queued tid then k.halt (.invariant "thread in two queues at once")
    else if t.state = .NEW || t.state = .SLEEPING
        || (k.yield && t.state = .RUNNING && k.curthr = some tid) then
      { k.updThr tid (fun t => { t with state := .RUNNABLE }) with runq := k.runq ++ [tid] }
    else k.halt (.invariant "make_runnable: thread is not SLEEPING or newly created")

/-- Modelled from the spec: `switch()` (§4.2): saves the outgoing thread's
context (`saved` is the code it goes on with), pops the head of the run queue,
sets its state RUNNING, sets it as current and activates its context.  The
outgoing thread's state is not changed.  An empty run queue is left undefined
by the spec and stops the model. -/
def switch (k : Kernel) (saved : Prog Val) : Kernel :=
  let k1 := match k.curthr with
    | some cur => k.updThr cur (fun t => { t with ctx := saved })
    | none => k
  match k1.runq with
  | [] => k1.halt .runq_empty
  | next :: rest =>
    match k1.findThr next with
    | none => k1.halt (.invariant "switch: no such thread")
    | some t =>
      { k1.updThr next (fun t => { t with state := .RUNNING }) with
        runq := rest, curthr := some next, curproc := some t.proc, cpu := t.ctx }

/-- Modelled from the spec: "wake all" on the death wait queue of a process
(§2, §4.2): every thread of the queue, in order, is dequeued and made
runnable. -/
def wake_parent (k : Kernel) (par : Nat) : Kernel :=
  match k.findProc par with
  | none => k
  | some p =>
    let k1 := k.updProc par (fun q => { q with wait := [] })
    p.wait.foldl (fun acc tid => acc.make_runnable tid) k1

/-- The root process: the one without a parent. -/
def rootPid (k : Kernel) : Option Nat :=
  (k.procs.find? (fun p => p.parent.isNone)).map (fun p => p.pid)

/-- Modelled from the spec: orphan handling (§4.3): the children of a process
that becomes ZOMBIE are re-parented to the root process. -/
def reparent (k : Kernel) (pid : Nat) : Kernel :=
  match k.findProc pid, k.rootPid with
  | some p, some root =>
    if p.children.isEmpty || root == pid then k
    else
      let k1 := { k with procs := k.procs.map (fun (q : Proc) =>
        if p.children.contains q.pid then { q with parent := some root } else q) }
      let k2 := k1.updProc root (fun q => { q with children := q.children ++ p.children })
      k2.updProc pid (fun q => { q with children := [] })
  | _, _ => k

/-- Modelled from the spec: `exit(status)` (§4.3): records the status on the
owning process, marks the calling thread EXITED, and if this was the last live
thread turns the process into a ZOMBIE, re-parents its children and wakes the
death wait queue of its parent; then calls `switch()`. -/
def exit (k : Kernel) (status : Int) (saved : Prog Val) : Kernel :=
  match k.curthr, k.curproc with
  | some tid, some pid =>
    let k1 := k.updProc pid (fun q => { q with status := status })
    let k2 := k1.updThr tid (fun t => { t with state := .EXITED })
    let live := k2.thrs.any (fun t => t.proc == pid && t.state != .EXITED)
    let k3 :=
      if live then k2
      else
        let k4 := (k2.updProc pid (fun q => { q with state := .ZOMBIE })).reparent pid
        match k.findProc pid with
        | some p =>
          match p.parent with
          | some par => k4.wake_parent par
          | none => k4
        | none => k4
    match k3.halted with
    | some _ => k3
    | none => k3.switch saved
  | _, _ => k.halt (.invariant "exit outside a thread")

/-- Modelled from the spec: `NoSuchChild` (§4.4, §7), returned by `do_waitpid`
as `-ECHILD`; `errno.h` is not among the sources. -/
def NoSuchChild : Val := .int (-10)

/-- Modelled from the spec: `do_waitpid` (§4.4).  With no children, or a pid
that is not a child: `NoSuchChild` at once.  Otherwise the children are scanned
in order for the first ZOMBIE that matches the selector (`-1`: any child); it
is reaped: removed from the table and from the parent's children, its threads
reclaimed, its pid returned.  With no such child the caller blocks on its
process's death wait queue and re-scans when woken. -/
def do_waitpid (k : Kernel) (pid : Int) (options : Int) (status : Bool)
    (cont : Val → Prog Val) : Kernel × Option Val :=
  match k.curthr, k.curproc with
  | some tid, some me =>
    match k.findProc me with
    | none => (k.halt (.invariant "do_waitpid: no current process"), none)
    | some p =>
      if p.children.isEmpty then (k.resume cont NoSuchChild, some NoSuchChild)
      else if pid != -1 && !(p.children.any (fun (c : Nat) => Int.ofNat c == pid)) then
        (k.resume cont NoSuchChild, some NoSuchChild)
      else
        let zombie := p.children.find? (fun (c : Nat) =>
          (pid == -1 || Int.ofNat c == pid) &&
            (match k.findProc c with
             | some cp => cp.state == .ZOMBIE
             | none => false))
        match zombie with
        | some c =>
          let k1 := { k with
            procs := k.procs.filter (fun q => q.pid != c),
            thrs := k.thrs.filter (fun t => t.proc != c) }
          let k2 := k1.updProc me (fun q => { q with children := q.children.filter (fun x => x != c) })
          (k2.resume cont (.int c), some (.int c))
        | none =>
          let k1 := k.updThr tid (fun t => { t with state := .SLEEPING })
          let k2 := k1.updProc me (fun q => { q with wait := q.wait ++ [tid] })
          (k2.switch (.call (.do_waitpid pid options status) cont), none)
  | _, _ => (k.halt (.invariant "do_waitpid outside a thread"), none)

/-- The mutex behind a `kmutex_t *`. -/
def findMtx (k : Kernel) (m : Val) : Option (Nat × KMutex) :=
  match m with
  | .mtx h =>
    match k.mtxs[h]? with
    | some (some mx) => some (h, mx)
    | _ => none
  | _ => none

/-- Modelled from the spec: `lock()` (§4.5): a free mutex is taken by the
current thread at once; otherwise the current thread is enqueued on the
mutex's wait queue and blocks, and `lock` returns when it is woken, the
ownership having been handed to it by `unlock`. -/
def kmutex_lock (k : Kernel) (m : Val) (cont : Val → Prog Val) : Kernel × Option Val :=
  match k.findMtx m, k.curthr with
  | some (h, mx), some tid =>
    match mx.owner with
    | none =>
      ({ k with mtxs := k.mtxs.set h (some { mx with owner := some tid }) }.resume cont .null,
        some .null)
    | some _ =>
      let k1 := k.updThr tid (fun t => { t with state := .SLEEPING })
      let k2 := { k1 with mtxs := k1.mtxs.set h (some { mx with waitq := mx.waitq ++ [tid] }) }
      (k2.switch (cont .null), none)
  | _, _ => (k.halt (.invariant "kmutex_lock: no such mutex"), none)

/-- Modelled from the spec: `unlock()` (§4.5): `NotOwner` unless the caller is
the owner; with a non-empty wait queue its head is dequeued, becomes the owner
and is made runnable; with an empty one the mutex has no owner. -/
def kmutex_unlock (k : Kernel) (m : Val) (cont : Val → Prog Val) : Kernel × Option Val :=
  match k.findMtx m, k.curthr with
  | some (h, mx), some tid =>
    if mx.owner ≠ some tid then (k.halt .NotOwner, none)
    else
      match mx.waitq with
      | [] =>
        ({ k with mtxs := k.mtxs.set h (some { owner := none, waitq := [] }) }.resume cont .null,
          some .null)
      | next :: rest =>
        let k1 := { k with mtxs := k.mtxs.set h (some { owner := some next, waitq := rest }) }
        ((k1.make_runnable next).resume cont .null, some .null)
  | _, _ => (k.halt (.invariant "kmutex_unlock: no such mutex"), none)

/-- Modelled from the spec: `activate(context)` (§4.1), for the context of the
thread `t`: the CPU goes on with the code saved in the context and never comes
back to the caller.  This is the first activation, after which the activated
thread is the RUNNING one (§3, Scheduler). -/
def context_make_active (k : Kernel) (t : Val) : Kernel :=
  match t with
  | .thr tid =>
    match k.findThr tid with
    | some th => { k.updThr tid (fun t => { t with state := .RUNNING }) with cpu := th.ctx }
    | none => k.halt (.invariant "context_make_active: no such thread")
  | _ => k.halt (.invariant "context_make_active: not a thread")

/-- What one call does to the kernel state, and the value it returns to the
caller at once, if it does.  Calls into subsystems outside the process core
(page tables, init hooks, debug output, VFS, drivers) leave the state alone. -/
def exec (k : Kernel) (c : Call) (cont : Val → Prog Val) : Kernel × Option Val :=
  match c with
  | .proc_create name =>
    let (k1, v) := k.proc_create name
    (k1.resume cont v, some v)
  | .kthread_create p func arg1 arg2 =>
    let (k1, v) := k.kthread_create p func arg1 arg2
    (k1.resume cont v, some v)
  | .set_curproc p =>
    match p with
    | .proc pid => ({ k with curproc := some pid }.resume cont .null, some .null)
    | _ => (k.halt (.invariant "curproc: not a process"), none)
  | .set_curthr t =>
    match t with
    | .thr tid => ({ k with curthr := some tid }.resume cont .null, some .null)
    | _ => (k.halt (.invariant "curthr: not a thread"), none)
  | .get_curproc =>
    match k.curproc with
    | some pid => (k.resume cont (.proc pid), some (.proc pid))
    | none => (k.resume cont .null, some .null)
  | .get_curthr =>
    match k.curthr with
    | some tid => (k.resume cont (.thr tid), some (.thr tid))
    | none => (k.resume cont .null, some .null)
  | .context_make_active t => (k.context_make_active t, none)
  | .intr_enable => ({ k with intr := true }.resume cont .null, some .null)
  | .sched_make_runnable t =>
    match t with
    | .thr tid => ((k.make_runnable tid).resume cont .null, some .null)
    | _ => (k.halt (.invariant "sched_make_runnable: not a thread"), none)
  | .sched_switch => (k.switch (cont .null), none)
  | .do_waitpid pid options status => k.do_waitpid pid options status cont
  | .do_exit status => (k.exit status (cont .null), none)
  | .kthread_exit retval => (k.exit retval (cont .null), none)
  | .kmalloc_kmutex =>
    ({ k with mtxs := k.mtxs ++ [none] }.resume cont (.mtx k.mtxs.length),
      some (.mtx k.mtxs.length))
  | .kfree p =>
    match p with
    | .mtx h => ({ k with mtxs := k.mtxs.set h none }.resume cont .null, some .null)
    | _ => (k.resume cont .null, some .null)
  | .kmutex_init m =>
    match m with
    | .mtx h =>
      ({ k with mtxs := k.mtxs.set h (some { owner := none, waitq := [] }) }.resume cont .null,
        some .null)
    | _ => (k.halt (.invariant "kmutex_init: not a mutex"), none)
  | .kmutex_lock m => k.kmutex_lock m cont
  | .kmutex_unlock m => k.kmutex_unlock m cont
  | .cli_hlt => (k.halt .shutdown, none)
  | .kpanic msg => (k.halt (.panicked msg), none)
  | .vfs_shutdown => (k.resume cont (.int 0), some (.int 0))
  | _ => (k.resume cont .null, some .null)

/-- The call the CPU is about to make. -/
def nextCall (k : Kernel) : Option Call :=
  match k.halted, k.cpu with
  | none, .call c _ => some c
  | _, _ => none

/-- One step of the machine: the running code makes its next call. -/
def step (k : Kernel) : Kernel :=
  match k.halted with
  | some _ => k
  | none =>
    match k.cpu with
    | .ret _ => k.halt (.invariant "a thread's entry function returned")
    | .call c cont =>
      let (k1, r) := k.exec c cont
      { k1 with log := { thr := k.curthr, proc := k.curproc, call := c, ret := r } :: k1.log }

/-- The state in which `kmain` hands the CPU to `bootstrap(0, NULL)`: no
process, no thread, empty run queue, interrupts disabled; `yield` is the
reading of `make_runnable`. -/
def boot (yield : Bool) (cfg : Config) : Kernel :=
  { cfg := cfg, yield := yield, procs := [], thrs := [], mtxs := [], runq := [], curproc := none,
    curthr := none, cpu := bootstrap 0 .null, next_pid := 0, next_tid := 0, intr := false,
    halted := none, log := [] }

/-- The state after `n` steps. -/
def run : Nat → Kernel → Kernel
  | 0, k => k
  | n + 1, k => run n k.step

/-- The first `n + 1` states of the machine, from `k` on. -/
def states : Nat → Kernel → List Kernel
  | 0, k => [k]
  | n + 1, k => k :: states n k.step

end Kernel

end Weenix

namespace Weenix
namespace Kernel

/-- The name of the process with the given pid, while it is in the table. -/
def procName (k : Kernel) (pid : Nat) : Option String :=
  (k.findProc pid).map (fun p => p.name)

/-- The name of the process that owns the thread. -/
def thrName (k : Kernel) (tid : Nat) : Option String :=
  match k.findThr tid with
  | some t => k.procName t.proc
  | none => none

/-- The state of a thread. -/
def thrState (k : Kernel) (tid : Nat) : Option ThrState :=
  (k.findThr tid).map (fun t => t.state)

/-- The owner of the mutex with handle `h`, by the name of its process. -/
def ownerName (k : Kernel) (h : Nat) : Option String :=
  match k.findMtx (.mtx h) with
  | some (_, mx) =>
    match mx.owner with
    | some tid => k.thrName tid
    | none => none
  | none => none

/-- The name of the current process. -/
def curName (k : Kernel) : Option String :=
  match k.curproc with
  | some pid => k.procName pid
  | none => none

/-- The children of the current process. -/
def curChildren (k : Kernel) : List Nat :=
  match k.curproc with
  | some pid =>
    match k.findProc pid with
    | some p => p.children
    | none => []
  | none => []

/-- The executed calls, earliest first. -/
def history (k : Kernel) : List Event :=
  k.log.reverse

/-- The pid and the name of every process created so far, from the logged
`proc_create` calls. -/
def created (k : Kernel) : List (Nat × String) :=
  k.history.filterMap (fun e =>
    match e.call, e.ret with
    | .proc_create name, some (.proc pid) => some (pid, name)
    | _, _ => none)

/-- The name under which the process `pid` was created. -/
def createdName (k : Kernel) (pid : Nat) : Option String :=
  (k.created.find? (fun c => c.1 == pid)).map (fun c => c.2)

/-- The events of the process created under the name `name`. -/
def eventsOf (k : Kernel) (name : String) : List Event :=
  k.history.filter (fun e =>
    match e.proc with
    | some pid => k.createdName pid == some name
    | none => false)

/-- The names of the processes the process `name` created, in order. -/
def createdBy (k : Kernel) (name : String) : List String :=
  (k.eventsOf name).filterMap (fun e =>
    match e.call with
    | .proc_create child => some child
    | _ => none)

/-- The values that the `do_waitpid(-1, 0, NULL)` calls of the process `name`
returned, in order. -/
def waitResults (k : Kernel) (name : String) : List Val :=
  (k.eventsOf name).filterMap (fun e =>
    match e.call, e.ret with
    | .do_waitpid (-1) 0 false, some v => some v
    | _, _ => none)

/-- The name of the process a `do_waitpid` result stands for. -/
def reapedName (k : Kernel) (v : Val) : Option String :=
  match v with
  | .int (.ofNat pid) => k.createdName pid
  | _ => none

end Kernel

/-- Drop every element that repeats its predecessor. -/
def squeeze {α : Type} [DecidableEq α] : List α → List α
  | [] => []
  | [a] => [a]
  | a :: b :: rest => if a = b then squeeze (b :: rest) else a :: squeeze (b :: rest)

/-- Modelled from the spec: the precondition of `make_runnable(thread)` as §4.2
words it: the thread is newly created or SLEEPING. -/
def Kernel.make_runnable_pre (k : Kernel) (tid : Nat) : Bool :=
  k.thrState tid == some .NEW || k.thrState tid == some .SLEEPING

/-- In state `k`, if the running code is about to call `sched_make_runnable`,
the thread passed meets the precondition of §4.2 and is not the current
thread. -/
def Kernel.runnableCallMeetsPre (k : Kernel) : Bool :=
  match k.nextCall with
  | some (.sched_make_runnable (.thr tid)) => k.make_runnable_pre tid && k.curthr != some tid
  | some (.sched_make_runnable _) => false
  | _ => true

/-- In state `k`, if the running code is about to call `sched_make_runnable`,
the thread passed is either newly created and not the current thread, or it is
the current thread, RUNNING, and the very next call of the caller is
`sched_switch`. -/
def Kernel.runnableCallNewOrYield (k : Kernel) : Bool :=
  match k.halted, k.cpu with
  | none, .call (.sched_make_runnable (.thr tid)) cont =>
    (k.thrState tid == some .NEW && k.curthr != some tid) ||
      (k.curthr == some tid && k.thrState tid == some .RUNNING &&
        (match cont .null with
         | .call .sched_switch _ => true
         | _ => false))
  | none, .call (.sched_make_runnable _) _ => false
  | _, _ => true

/-- The build with none of the optional subsystems. -/
def procsOnly : Config :=
  { VFS := false, MTP := false, SHADOWD := false, S5FS := false, DRIVERS := false }

end Weenix

namespace Weenix

/-- Is the call a `kmutex_lock` on the mutex with handle `h`? -/
def Call.isLockOf (h : Nat) : Call → Bool
  | .kmutex_lock (.mtx m) => m == h
  | _ => false

/-- Is the call a `kmutex_unlock` on the mutex with handle `h`? -/
def Call.isUnlockOf (h : Nat) : Call → Bool
  | .kmutex_unlock (.mtx m) => m == h
  | _ => false

namespace Kernel

/-- The entries into (`true`) and exits from (`false`) the critical section of
the mutex with handle `h`, in the order of the events, each with the pid of the
process whose thread enters or leaves.  This is ownership seen from the
threads: a thread enters when its `kmutex_lock` returns, which is at once, or,
when the call blocked, at the next call the thread makes; it leaves when it
calls `kmutex_unlock`.  `blocked` lists the threads whose `kmutex_lock` has not
returned yet. -/
def sections (h : Nat) (blocked : List Nat) : List Event → List (Bool × Option Nat)
  | [] => []
  | e :: rest =>
    match e.thr with
    | none => sections h blocked rest
    | some t =>
      let entered := if blocked.contains t then [(true, e.proc)] else []
      let others := blocked.filter (fun b => b != t)
      if e.call.isLockOf h then
        if e.ret.isSome then entered ++ (true, e.proc) :: sections h others rest
        else entered ++ sections h (t :: others) rest
      else if e.call.isUnlockOf h then entered ++ (false, e.proc) :: sections h others rest
      else entered ++ sections h others rest

/-- The entries into and exits from the critical section of the mutex with
handle `h` in the run so far, by the names of the processes. -/
def sectionNames (k : Kernel) (h : Nat) : List (Bool × Option String) :=
  (sections h [] k.history).map (fun x =>
    (x.1, match x.2 with
      | some pid => k.createdName pid
      | none => none))

/-- The names of the processes that made a call selected by `f`, in the order
of the calls. -/
def callers (k : Kernel) (f : Call → Bool) : List (Option String) :=
  k.history.filterMap (fun e =>
    match e.proc with
    | some pid => if f e.call then some (k.createdName pid) else none
    | none => none)

/-- Is the process `name` about to call `do_exit`? -/
def exiting (k : Kernel) (name : String) : Bool :=
  match k.nextCall with
  | some (.do_exit _) => k.curName == some name
  | _ => false

end Kernel

/-- Is the call a `do_exit` or a `kthread_exit`? -/
def Call.isExit : Call → Bool
  | .do_exit _ => true
  | .kthread_exit _ => true
  | _ => false

/-- Is the call a `kmutex_unlock`? -/
def Call.isUnlock : Call → Bool
  | .kmutex_unlock _ => true
  | _ => false

/-- Is the call an `intr_enable`? -/
def Call.isIntrEnable : Call → Bool
  | .intr_enable => true
  | _ => false

/-- Is the call a `sched_make_runnable`? -/
def Call.isMakeRunnable : Call → Bool
  | .sched_make_runnable _ => true
  | _ => false

/-- In a sequence of calls, every `intr_enable` comes after some
`sched_make_runnable`. -/
def IntrEnableOnlyAfterRunnable (tr : List Call) : Prop :=
  ∀ i : Nat, tr[i]? = some Call.intr_enable →
    ∃ j : Nat, j < i ∧ ∃ t : Val, tr[j]? = some (Call.sched_make_runnable t)

/-- Collaborators that answer as in an undisturbed boot: `proc_create` and
`kthread_create` return the init process and its thread, `do_waitpid` returns
`PID_INIT`, `vfs_shutdown` returns 0. -/
def bootAnswers (hist : List Call) : Val :=
  match hist.getLast? with
  | some (.proc_create _) => .proc 1
  | some (.kthread_create _ _ _ _) => .thr 1
  | some (.do_waitpid _ _ _) => .int PID_INIT
  | some .vfs_shutdown => .int 0
  | _ => .null

end Weenix

namespace Weenix

/-- Is the running code about to call `sched_make_runnable`? -/
def Kernel.callsMakeRunnable (k : Kernel) : Bool :=
  match k.nextCall with
  | some c => c.isMakeRunnable
  | none => false

/-- The machine after 170 steps from `bootstrap(0, NULL)`, with the
`make_runnable` that accepts the yield of the current thread. -/
def yieldRun (cfg : Config) : Kernel :=
  Kernel.run 170 (Kernel.boot true cfg)

/-- The states the machine goes through in these 170 steps, the first and the
last included. -/
def yieldStates (cfg : Config) : List Kernel :=
  Kernel.states 170 (Kernel.boot true cfg)

/-- The machine after 160 steps from `bootstrap(0, NULL)`, with `make_runnable`
as §4.2 words it, in the build with none of the optional subsystems. -/
def strictRun : Kernel :=
  Kernel.run 160 (Kernel.boot false procsOnly)

/-- The states the machine goes through in these 160 steps, the first and the
last included. -/
def strictStates : List Kernel :=
  Kernel.states 160 (Kernel.boot false procsOnly)

/-- The same state with `make_runnable` as §4.2 words it from now on. -/
def Kernel.asWorded : Kernel → Kernel
  | ⟨cfg, _, procs, thrs, mtxs, runq, curproc, curthr, cpu, next_pid, next_tid, intr, halted,
      log⟩ =>
    ⟨cfg, false, procs, thrs, mtxs, runq, curproc, curthr, cpu, next_pid, next_tid, intr,
      halted, log⟩

/-- The state the boot run reaches, with the `make_runnable` that accepts the
yield, after 115 steps: `initproc_run` is about to create the process
"out of order". -/
def outOfOrderLaunch : Kernel :=
  Kernel.run 115 (Kernel.boot true procsOnly)

/-- The machine 45 steps after `outOfOrderLaunch`, with `make_runnable` as §4.2
words it from there on. -/
def outOfOrderStrictRun : Kernel :=
  Kernel.run 45 outOfOrderLaunch.asWorded

/-- The latest executed call, with the calling thread. -/
def Kernel.lastCall (k : Kernel) : Option (Call × Option Nat) :=
  k.log.head?.map (fun e => (e.call, e.thr))

/-- Is the first call of the sequence a `sched_switch`? -/
def startsWithSwitch : List (Call × Val) → Bool
  | (.sched_switch, _) :: _ => true
  | _ => false

/-- In a sequence of calls with the values they returned, every
`sched_make_runnable` passes either a value that an earlier `kthread_create`
of the sequence returned (`created`), or the value that a `get_curthr` just
before it returned (`cur`), and is then followed at once by `sched_switch`. -/
def runnableArgs (created : List Val) (cur : Option Val) : List (Call × Val) → Bool
  | [] => true
  | (c, v) :: rest =>
    match c with
    | .kthread_create _ _ _ _ => runnableArgs (v :: created) none rest
    | .get_curthr => runnableArgs created (some v) rest
    | .sched_make_runnable t =>
      (created.contains t || (cur == some t && startsWithSwitch rest))
        && runnableArgs created none rest
    | _ => runnableArgs created none rest

end Weenix

namespace Weenix

/-! ## Theorems: memory devices -/

theorem zero_read_loop_spec (n : Nat) :
    ∀ (buff : List Nat) (i : Nat), i + n ≤ buff.length →
      ∃ b, zero_read_loop buff n i = some b ∧ b.length = buff.length ∧
        ∀ j, b[j]? = if i ≤ j ∧ j < i + n then some 0 else buff[j]? := by
  induction n with
  | zero =>
    intro buff i _
    refine ⟨buff, rfl, rfl, ?_⟩
    intro j
    have : ¬ (i ≤ j ∧ j < i + 0) := by omega
    rw [if_neg this]
  | succ n ih =>
    intro buff i h
    have hi : i < buff.length := by omega
    obtain ⟨b, hb, hlen, hget⟩ := ih (buff.set i 0) (i + 1) (by simp; omega)
    refine ⟨b, ?_, ?_, ?_⟩
    · simp [zero_read_loop, hi, hb]
    · simpa using hlen
    · intro j
      rw [hget j]
      by_cases hj : j = i
      · subst hj
        have h1 : ¬ (j + 1 ≤ j ∧ j < j + 1 + n) := by omega
        have h2 : j ≤ j ∧ j < j + (n + 1) := by omega
        rw [if_neg h1, if_pos h2]
        simp [hi]
      · have hne : i ≠ j := fun e => hj e.symm
        by_cases hr : i + 1 ≤ j ∧ j < i + 1 + n
        · have h2 : i ≤ j ∧ j < i + (n + 1) := by omega
          rw [if_pos hr, if_pos h2]
        · have h2 : ¬ (i ≤ j ∧ j < i + (n + 1)) := by omega
          rw [if_neg hr, if_neg h2]
          simp [List.getElem?_set, hne]

/-- C1 (the code at the failing input): writing the one-byte buffer `[0]` with
`count = 1` to the null device returns 0, not `count`. -/
theorem null_write_zero_byte : null_write 0 0 [0] 1 = some 0 := by
  decide

/-- C2 (the code at the failing input): a `null_read` with `count = 0` on the
one-byte buffer `[65]` returns 0 and leaves the buffer as `[4]`. -/
theorem null_read_overwrites_first_byte : null_read 0 0 [65] 0 = some (0, [4]) := by
  decide

/-- C3: for every device, offset, buffer and count with
`0 ≤ count ≤ length of the buffer`, `zero_read` returns `count`, and afterwards
the buffer has its old length, every byte at an index below `count` is 0 and
every byte at an index of `count` or above is unchanged. -/
theorem zero_read_spec (dev : Nat) (offset : Int) (buf : List Nat) (count : Int)
    (h0 : 0 ≤ count) (hlen : count ≤ (buf.length : Int)) :
    ∃ buf', zero_read dev offset buf count = some (count, buf') ∧
      buf'.length = buf.length ∧
      (∀ j : Nat, (j : Int) < count → buf'[j]? = some 0) ∧
      (∀ j : Nat, count ≤ (j : Int) → buf'[j]? = buf[j]?) := by
  obtain ⟨b, hb, hl, hget⟩ := zero_read_loop_spec count.toNat buf 0 (by omega)
  refine ⟨b, ?_, hl, ?_, ?_⟩
  · simp [zero_read, hb]
  · intro j hj
    rw [hget j]
    have : 0 ≤ j ∧ j < 0 + count.toNat := by omega
    rw [if_pos this]
  · intro j hj
    rw [hget j]
    have : ¬ (0 ≤ j ∧ j < 0 + count.toNat) := by omega
    rw [if_neg this]

/-- Witness for C3: the buffer `[7, 8, 9]` read with `count = 2`. -/
theorem zero_read_spec_witness :
    (0 : Int) ≤ 2 ∧ (2 : Int) ≤ (([7, 8, 9] : List Nat).length : Int) ∧
    ∃ buf', zero_read 0 0 [7, 8, 9] 2 = some (2, buf') ∧
      buf'.length = [7, 8, 9].length ∧
      (∀ j : Nat, (j : Int) < 2 → buf'[j]? = some 0) ∧
      (∀ j : Nat, (2 : Int) ≤ (j : Int) → buf'[j]? = [7, 8, 9][j]?) :=
  ⟨by decide, by decide, zero_read_spec 0 0 [7, 8, 9] 2 (by decide) (by decide)⟩

/-! ## Theorems: the boot path, call by call -/

/-- C4: whatever the collaborators return and whatever the build options,
(1) `bootstrap` calls `proc_create("Idle process")`, then `kthread_create` on
the process returned, with entry `idleproc_run`, then `context_make_active` on
the context of the thread returned, and nothing after it;
(2) `idleproc_run` calls `proc_create("Init process")`, `kthread_create` on the
process returned, with entry `initproc_run`, later `sched_make_runnable` on the
thread returned, then `do_waitpid(PID_INIT, 0, &status)`; when the wait returns
anything but `PID_INIT` the only call that follows is the panic of the failed
assertion, and when it returns `PID_INIT` the sequence ends with the halt of
`hard_shutdown` (or, with VFS, with the panic of a failed VFS shutdown). -/
theorem boot_path_order (cfg : Config) (o : List Call → Val) :
    (∃ r1 idle_proc r2 idle_thr r3 r4,
      Prog.trace o [] (bootstrap 0 .null) =
        [(.pt_template_init, r1), (.proc_create "Idle process", idle_proc),
         (.set_curproc idle_proc, r2),
         (.kthread_create idle_proc .idleproc_run 0 .null, idle_thr),
         (.set_curthr idle_thr, r3), (.dbg "Before context_make_active\n", r4),
         (.context_make_active idle_thr, .null)]) ∧
    (∃ r0 init_proc initthr r1 r2 r3 r4 child rest,
      Prog.trace o [] (idleproc_run cfg 0 .null) =
        [(.dbg "Start idleproc_run.\n", r0), (.proc_create "Init process", init_proc),
         (.kthread_create init_proc .initproc_run 0 .null, initthr),
         (.init_call_all, r1), (.gdb_hook "initialized", r2), (.intr_enable, r3),
         (.sched_make_runnable initthr, r4), (.do_waitpid PID_INIT 0 true, child)] ++ rest ∧
      ((child ≠ .int PID_INIT ∧ rest = [(.kpanic "PID_INIT == child", .null)]) ∨
       (child = .int PID_INIT ∧ rest.getLast? = some (.cli_hlt, .null)) ∨
       (child = .int PID_INIT ∧ cfg.VFS = true ∧
         rest.getLast? = some (.kpanic "vfs shutdown FAILED!!\n", .null)))) := by
  refine ⟨⟨_, _, _, _, _, _, rfl⟩, ⟨_, _, _, _, _, _, _, _, _, rfl, ?_⟩⟩
  generalize o (_ ++ [Call.do_waitpid PID_INIT 0 true]) = child
  by_cases h : child = .int PID_INIT
  · subst h
    right
    obtain ⟨vfs, mtp, sh, s5, dr⟩ := cfg
    cases vfs <;> cases mtp <;> cases sh <;> cases s5 <;> cases dr <;>
      simp [KASSERT, hard_shutdown, call, Bind.bind, Prog.bind, Prog.trace, Call.noreturn, pure] <;>
      split_ifs <;> simp [Prog.trace, Call.noreturn]
  · left
    refine ⟨h, ?_⟩
    have h2 : (Val.int PID_INIT == child) = false := by
      simp [beq_iff_eq]; exact fun e => h e.symm
    simp [KASSERT, h2, call, Bind.bind, Prog.bind, Prog.trace, Call.noreturn]

/-- C5 (as stated, refuted): with collaborators that answer as in an
undisturbed boot, the calls of `idleproc_run` have an `intr_enable` that no
`sched_make_runnable` precedes. -/
theorem intr_enable_not_after_runnable :
    ¬ IntrEnableOnlyAfterRunnable
      ((Prog.trace bootAnswers [] (idleproc_run procsOnly 0 .null)).map Prod.fst) := by
  intro h
  obtain ⟨j, hj, t, ht⟩ := h 5 (by decide)
  interval_cases j <;>
    simp [Prog.trace, idleproc_run, initproc_create, call, Bind.bind, Prog.bind,
      Call.noreturn] at ht

/-- C5 (amended): whatever the collaborators return and whatever the build
options, `idleproc_run` calls `intr_enable` exactly once: after the calls of
`initproc_create` and `init_call_all`, and immediately before its only
`sched_make_runnable`, the one on the init thread; neither call occurs again
in what follows the wait. -/
theorem intr_enable_before_runnable (cfg : Config) (o : List Call → Val) :
    ∃ r0 init_proc initthr r1 r2 r3 r4 child rest,
      Prog.trace o [] (idleproc_run cfg 0 .null) =
        [(.dbg "Start idleproc_run.\n", r0), (.proc_create "Init process", init_proc),
         (.kthread_create init_proc .initproc_run 0 .null, initthr),
         (.init_call_all, r1), (.gdb_hook "initialized", r2), (.intr_enable, r3),
         (.sched_make_runnable initthr, r4), (.do_waitpid PID_INIT 0 true, child)] ++ rest ∧
      rest.all (fun e => !e.1.isIntrEnable && !e.1.isMakeRunnable) = true := by
  refine ⟨_, _, _, _, _, _, _, _, _, rfl, ?_⟩
  generalize o (_ ++ [Call.do_waitpid PID_INIT 0 true]) = child
  by_cases h : child = .int PID_INIT
  · subst h
    obtain ⟨vfs, mtp, sh, s5, dr⟩ := cfg
    cases vfs <;> cases mtp <;> cases sh <;> cases s5 <;> cases dr <;>
      simp [-List.all_eq_true, KASSERT, hard_shutdown, call, Bind.bind, Prog.bind, Prog.trace,
        Call.noreturn, pure, Call.isMakeRunnable, Call.isIntrEnable] <;>
      split_ifs <;>
      simp [-List.all_eq_true, Prog.trace, Call.noreturn, Call.isMakeRunnable, Call.isIntrEnable]
  · have h2 : (Val.int PID_INIT == child) = false := by
      simp [beq_iff_eq]; exact fun e => h e.symm
    simp [KASSERT, h2, call, Bind.bind, Prog.bind, Prog.trace, Call.noreturn,
      Call.isMakeRunnable, Call.isIntrEnable]

end Weenix

namespace Weenix

/-! ## Theorems: the arguments of `sched_make_runnable`, function by function -/

set_option maxHeartbeats 4000000 in
theorem runnable_args_of_entry (cfg : Config) (f : Func) (arg1 : Int) (arg2 : Val)
    (o : List Call → Val) :
    runnableArgs [] none (Prog.trace o [] (entry cfg f arg1 arg2)) = true := by
  cases f
  · simp only [entry]
    obtain ⟨vfs, mtp, sh, s5, dr⟩ := cfg
    cases vfs <;> cases mtp <;> cases sh <;> cases s5 <;> cases dr <;>
      simp [idleproc_run, initproc_create, KASSERT, hard_shutdown, call, Bind.bind, Prog.bind,
        Prog.trace, Call.noreturn, pure, runnableArgs, startsWithSwitch] <;>
      (try split_ifs) <;>
      (try simp [Prog.trace, Call.noreturn, runnableArgs, startsWithSwitch]) <;>
      (try split_ifs) <;>
      (try simp [Prog.trace, Call.noreturn, runnableArgs, startsWithSwitch])
  all_goals
    simp [entry, initproc_run, print_proc_info, run_procs, lock_and_switch, just_lock,
      run_kmutex_test, switch_then_exit, just_exit, terminate_out_of_order, create_proc,
      print_proc_list, KASSERT, call, Bind.bind, Prog.bind, Prog.trace, Call.noreturn, pure,
      runnableArgs, startsWithSwitch]
  split_ifs <;>
    simp [Prog.bind, Prog.trace, Call.noreturn, runnableArgs, startsWithSwitch]

theorem runnable_args_of_bootstrap (arg1 : Int) (arg2 : Val) (o : List Call → Val) :
    runnableArgs [] none (Prog.trace o [] (bootstrap arg1 arg2)) = true := by
  simp [bootstrap, call, Bind.bind, Prog.bind, Prog.trace, Call.noreturn, runnableArgs]

/-! ## Theorems: the whole run, from `bootstrap` to the halt -/

set_option maxRecDepth 1000000 in
set_option maxHeartbeats 4000000 in
theorem yield_run_facts (cfg : Config) :
    ((yieldRun cfg).halted = some Halt.shutdown ∧
      ((yieldStates cfg).filter (fun s => s.callsMakeRunnable)).length = 19 ∧
      (∀ s ∈ yieldStates cfg, s.runnableCallNewOrYield = true)) ∧
    ((yieldRun cfg).halted = some Halt.shutdown ∧
    (yieldRun cfg).mtxs.length = 1 ∧
    (yieldRun cfg).createdBy "mutex test" =
      ["lock and switch No.1", "lock and switch No.2", "just lock No.1", "just lock No.2"] ∧
    (yieldRun cfg).sectionNames 0 =
      [(true, some "lock and switch No.1"), (false, some "lock and switch No.1"),
        (true, some "lock and switch No.2"), (false, some "lock and switch No.2"),
        (true, some "just lock No.1"), (false, some "just lock No.1"),
        (true, some "just lock No.2"), (false, some "just lock No.2")] ∧
    squeeze ((yieldStates cfg).map (fun s => s.ownerName 0)) =
      [none, some "lock and switch No.1", some "lock and switch No.2", some "just lock No.1",
        some "just lock No.2", none] ∧
    (yieldRun cfg).callers Call.isUnlock =
      [some "lock and switch No.1", some "lock and switch No.2", some "just lock No.1",
        some "just lock No.2"] ∧
    ((yieldRun cfg).callers Call.isExit).filter (fun n =>
        n ∈ ((yieldRun cfg).createdBy "mutex test").map some) =
      [some "lock and switch No.1", some "lock and switch No.2", some "just lock No.1",
        some "just lock No.2"] ∧
    ((yieldRun cfg).waitResults "mutex test").map (yieldRun cfg).reapedName =
      [some "lock and switch No.1", some "lock and switch No.2", some "just lock No.1",
        some "just lock No.2"]) ∧
    ((yieldRun cfg).halted = some Halt.shutdown ∧
    (yieldRun cfg).createdBy "out of order" =
      ["switch_then_exit No.1", "just_exit No.1", "switch_then_exit No.2", "just_exit No.2"] ∧
    ((yieldRun cfg).callers Call.isExit).filter (fun n =>
        n ∈ ((yieldRun cfg).createdBy "out of order").map some) =
      [some "just_exit No.1", some "just_exit No.2", some "switch_then_exit No.1",
        some "switch_then_exit No.2"] ∧
    (yieldRun cfg).waitResults "out of order" =
      [Val.int 12, Val.int 13, Val.int 15, Val.int 14] ∧
    ((yieldRun cfg).waitResults "out of order").map (yieldRun cfg).reapedName =
      [some "switch_then_exit No.1", some "just_exit No.1", some "just_exit No.2",
        some "switch_then_exit No.2"] ∧
    ((yieldStates cfg).filter (fun s => s.exiting "out of order")).map
        (fun s => s.curChildren) = [[]]) := by
  obtain ⟨a, b, c, d, e⟩ := cfg
  cases a <;> cases b <;> cases c <;> cases d <;> cases e <;> decide!

set_option maxRecDepth 1000000 in
/-- C6 (as stated, refuted): in the run from `bootstrap` on the scheduler as
§4.2 words it there is a state in which `kmain.c` calls `sched_make_runnable`
on a thread that is not newly created or SLEEPING, or that is the current
thread. -/
theorem runnable_called_on_running_thread :
    ¬ (∀ s ∈ strictStates, s.runnableCallMeetsPre = true) := by
  decide!

set_option maxRecDepth 1000000 in
/-- C6 (amended): whatever the collaborators return and whatever the build
options, every `sched_make_runnable` of `bootstrap` and of every thread entry
function of `kmain.c` passes either the thread that an earlier `kthread_create`
of the same function returned, or the `curthr` read just before it, and is then
followed at once by `sched_switch`.  In the run from `bootstrap` in which no
allocation fails, on the scheduler that accepts this yield, the machine ends in
the clean halt after 19 such calls, and at each of them the thread passed is
either newly created and not the current thread, or the current thread itself,
RUNNING, whose next call is `sched_switch`; the same holds of the calls made on
the scheduler as §4.2 words it, up to its halt. -/
theorem runnable_calls_new_or_yield (cfg : Config) (f : Func) (arg1 : Int) (arg2 : Val)
    (o : List Call → Val) :
    runnableArgs [] none (Prog.trace o [] (bootstrap arg1 arg2)) = true ∧
    runnableArgs [] none (Prog.trace o [] (entry cfg f arg1 arg2)) = true ∧
    ((yieldRun cfg).halted = some Halt.shutdown ∧
      ((yieldStates cfg).filter (fun s => s.callsMakeRunnable)).length = 19 ∧
      (∀ s ∈ yieldStates cfg, s.runnableCallNewOrYield = true)) ∧
    (∀ s ∈ strictStates, s.runnableCallNewOrYield = true) :=
  ⟨runnable_args_of_bootstrap arg1 arg2 o, runnable_args_of_entry cfg f arg1 arg2 o,
    (yield_run_facts cfg).1, by decide!⟩

set_option maxRecDepth 1000000 in
/-- C7 (as stated, refuted): on the scheduler as §4.2 words it, the run from
`bootstrap` creates the four workers of "mutex test" and then halts on an
invariant violation at the `sched_make_runnable(curthr)` of
"lock and switch No.1" (thread 7): the mutex has had the owners none and L1
only, nobody has unlocked, and no `do_waitpid` of "mutex test" has returned. -/
theorem kmutex_test_halts_when_strict :
    strictRun.halted =
      some (Halt.invariant "make_runnable: thread is not SLEEPING or newly created") ∧
    strictRun.lastCall = some (Call.sched_make_runnable (Val.thr 7), some 7) ∧
    strictRun.createdName 7 = some "lock and switch No.1" ∧
    strictRun.createdBy "mutex test" =
      ["lock and switch No.1", "lock and switch No.2", "just lock No.1", "just lock No.2"] ∧
    squeeze (strictStates.map (fun s => s.ownerName 0)) = [none, some "lock and switch No.1"] ∧
    strictRun.sectionNames 0 = [(true, some "lock and switch No.1")] ∧
    strictRun.callers Call.isUnlock = [] ∧
    strictRun.waitResults "mutex test" = [] := by
  decide!

/-- C7 (amended): on the scheduler that accepts the yield of the current
thread, in the run from `bootstrap` in which no allocation fails, whatever the
build options: the run ends in the clean halt; the process "mutex test"
allocates the only mutex and creates the four workers in the order L1, L2, J1,
J2; seen from the threads, the critical sections are entered and left in the
order L1, L2, J1, J2, each once and none entered before the one before it is
left; the mutex's owner goes from none through L1, L2, J1, J2, in this order
and each once, back to none; the four unlock, exit and are reaped in that
order. -/
theorem kmutex_test_fifo_ownership (cfg : Config) :
    (yieldRun cfg).halted = some Halt.shutdown ∧
    (yieldRun cfg).mtxs.length = 1 ∧
    (yieldRun cfg).createdBy "mutex test" =
      ["lock and switch No.1", "lock and switch No.2", "just lock No.1", "just lock No.2"] ∧
    (yieldRun cfg).sectionNames 0 =
      [(true, some "lock and switch No.1"), (false, some "lock and switch No.1"),
        (true, some "lock and switch No.2"), (false, some "lock and switch No.2"),
        (true, some "just lock No.1"), (false, some "just lock No.1"),
        (true, some "just lock No.2"), (false, some "just lock No.2")] ∧
    squeeze ((yieldStates cfg).map (fun s => s.ownerName 0)) =
      [none, some "lock and switch No.1", some "lock and switch No.2", some "just lock No.1",
        some "just lock No.2", none] ∧
    (yieldRun cfg).callers Call.isUnlock =
      [some "lock and switch No.1", some "lock and switch No.2", some "just lock No.1",
        some "just lock No.2"] ∧
    ((yieldRun cfg).callers Call.isExit).filter (fun n =>
        n ∈ ((yieldRun cfg).createdBy "mutex test").map some) =
      [some "lock and switch No.1", some "lock and switch No.2", some "just lock No.1",
        some "just lock No.2"] ∧
    ((yieldRun cfg).waitResults "mutex test").map (yieldRun cfg).reapedName =
      [some "lock and switch No.1", some "lock and switch No.2", some "just lock No.1",
        some "just lock No.2"] :=
  (yield_run_facts cfg).2.1

set_option maxRecDepth 1000000 in
/-- C8 (as stated, refuted): take the state in which `initproc_run` is about to
create "out of order" and run on from it on the scheduler as §4.2 words it.
The four children are created, the parent blocks in its first `do_waitpid`, and
the machine halts on an invariant violation at the `sched_make_runnable(curthr)`
of "switch_then_exit No.1" (thread 12): no child has exited and no `do_waitpid`
of "out of order" has returned. -/
theorem out_of_order_halts_when_strict :
    outOfOrderLaunch.nextCall = some (Call.proc_create "out of order") ∧
    outOfOrderLaunch.curName = some "Init process" ∧
    outOfOrderStrictRun.halted =
      some (Halt.invariant "make_runnable: thread is not SLEEPING or newly created") ∧
    outOfOrderStrictRun.lastCall = some (Call.sched_make_runnable (Val.thr 12), some 12) ∧
    outOfOrderStrictRun.createdName 12 = some "switch_then_exit No.1" ∧
    outOfOrderStrictRun.createdBy "out of order" =
      ["switch_then_exit No.1", "just_exit No.1", "switch_then_exit No.2", "just_exit No.2"] ∧
    (outOfOrderStrictRun.callers Call.isExit).filter (fun n =>
        n ∈ (outOfOrderStrictRun.createdBy "out of order").map some) = [] ∧
    outOfOrderStrictRun.waitResults "out of order" = [] := by
  decide!

/-- C8 (amended): on the scheduler that accepts the yield of the current
thread, in the run from `bootstrap` in which no allocation fails, whatever the
build options: the run ends in the clean halt; the process "out of order"
creates its four children in the order S1, E1, S2, E2; they exit in the order
E1, E2, S1, S2; its four `do_waitpid(-1, 0, NULL)` calls return the pids 12,
13, 15, 14, which are those of S1, E1, E2, S2: every child once; and when it
calls `do_exit` it has no children. -/
theorem out_of_order_all_reaped (cfg : Config) :
    (yieldRun cfg).halted = some Halt.shutdown ∧
    (yieldRun cfg).createdBy "out of order" =
      ["switch_then_exit No.1", "just_exit No.1", "switch_then_exit No.2", "just_exit No.2"] ∧
    ((yieldRun cfg).callers Call.isExit).filter (fun n =>
        n ∈ ((yieldRun cfg).createdBy "out of order").map some) =
      [some "just_exit No.1", some "just_exit No.2", some "switch_then_exit No.1",
        some "switch_then_exit No.2"] ∧
    (yieldRun cfg).waitResults "out of order" =
      [Val.int 12, Val.int 13, Val.int 15, Val.int 14] ∧
    ((yieldRun cfg).waitResults "out of order").map (yieldRun cfg).reapedName =
      [some "switch_then_exit No.1", some "just_exit No.1", some "just_exit No.2",
        some "switch_then_exit No.2"] ∧
    ((yieldStates cfg).filter (fun s => s.exiting "out of order")).map
        (fun s => s.curChildren) = [[]] :=
  (yield_run_facts cfg).2.2

end Weenix
